import Mathlib

/-!
Shallow embedding of `SynthSR/brain_generator.py` (class `BrainGenerator`).

The file in `src/` is a thin orchestration shell around collaborator modules
(`ext.lab2im.utils`, `ext.lab2im.edit_volumes`, `model_inputs.build_model_inputs`,
`labels_to_image_model.labels_to_image_model`) that are not part of the sources.
Code that lives in `src/SynthSR/brain_generator.py` is embedded from the source;
the missing collaborators are modelled from the specification (their definitions
carry a doc comment starting with `Modelled from the spec:`).

Conventions:
- numpy volumes are `Volume`: a shape vector (list of dimension sizes) together
  with a total voxel function `List Nat → Int` (labels and quantized intensities
  are integral; indices outside the shape are never read by the embedded code);
- a voxel-to-world affine matters to this code only through the orientation it
  implies; an `Affine` records, per spatial axis, whether the axis direction is
  reversed relative to the canonical (identity-affine, RAS) frame;
- 1-d numpy arrays are lists, and `x.shape == y.shape` for 1-d arrays is
  equality of lengths;
- a directory listing (`utils.list_images_in_folder`) is modelled by handing the
  constructor the listed volume files directly;
- python `assert`s / raised exceptions during `__init__` become `Except.error`;
- the infinite python generators (`_build_model_inputs_generator`,
  `_build_brain_generator`) are modelled as pure functions of a cursor `n : Nat`
  that indexes the stream position; `next` reads at the cursor and advances it.
-/

namespace SynthSR

/-- A dense volume: a shape vector and a total voxel function. The trailing
axis, when present, is the channel axis. -/
structure Volume where
  shape : List Nat
  data : List Nat → Int

def defaultVolume : Volume := ⟨[], fun _ => 0⟩

instance : Inhabited Volume := ⟨defaultVolume⟩

/-- The orientation content of a voxel-to-world affine: for each spatial axis,
whether the axis runs opposite to the canonical (identity affine) direction.
Modelled from the spec: affines enter this code only to fix the orientation in
which volumes are expressed (spec section 4.3); translation and scale parts are
irrelevant to the orchestration shell. -/
structure Affine where
  flips : List Bool

/-- The orientation of `np.eye(4)`: the canonical identity-affine orientation
on `n` spatial axes. -/
def canonicalAff (n : Nat) : Affine := ⟨List.replicate n false⟩

/-- One file on disk as seen by `utils.get_volume_info`: its voxel data, its
original voxel-to-world affine and its voxel resolution. -/
structure VolumeFile where
  vol : Volume
  aff : Affine
  res : List Nat

def defaultVolumeFile : VolumeFile := ⟨defaultVolume, ⟨[]⟩, []⟩

instance : Inhabited VolumeFile := ⟨defaultVolumeFile⟩

/-- The constructor arguments of `BrainGenerator.__init__` that the claims
exercise. Directory paths are replaced by the volume files their listing
yields; numeric augmentation bounds are kept as exact rationals. -/
structure Config where
  labels_dir : List VolumeFile
  images_dir : Option (List VolumeFile) := none
  generation_labels : List Int
  n_neutral_labels : Option Nat := none
  batchsize : Nat := 1
  input_channels : List Bool := [true]
  output_channel : List Nat := [0]
  output_shape : Option (List Nat) := none
  output_div_by_n : Option Nat := none
  generation_classes : Option (List Nat) := none
  flipping : Bool := true
  prior_means : Int × Int := (25, 225)
  prior_stds : Int × Int := (5, 25)
  scaling_bounds : Rat := 15/100
  rotation_bounds : Rat := 15
  shearing_bounds : Rat := 12/1000
  translation_bounds : Rat := 5
  nonlin_std : Rat := 3
  blur_range : Rat := 115/100
  bias_field_std : Rat := 3/10

/-- The constructed generator object: the fields `__init__` stores on `self`
(restricted to those the embedded operations and the claims read). -/
structure Generator where
  labels_paths : List VolumeFile
  images_paths : Option (List VolumeFile)
  labels_shape : List Nat
  aff : Affine
  n_dims : Nat
  atlas_res : List Nat
  generation_labels : List Int
  n_neutral_labels : Nat
  batchsize : Nat
  n_channels : Nat
  output_channel : List Nat
  flipping : Bool
  generation_classes : List Nat
  prior_means : Int × Int
  prior_stds : Int × Int
  scaling_bounds : Rat
  rotation_bounds : Rat
  shearing_bounds : Rat
  translation_bounds : Rat
  nonlin_std : Rat
  blur_range : Rat
  bias_field_std : Rat
  out_spatial_shape : List Nat

/-- Insert a value into a sorted duplicate-free list, keeping it sorted and
duplicate-free. Together with `npUnique` this models `np.unique`. -/
def insertSorted (x : Nat) : List Nat → List Nat
  | [] => [x]
  | y :: ys =>
    if x < y then x :: y :: ys
    else if x = y then y :: ys
    else y :: insertSorted x ys

/-- Model of `np.unique`: the sorted list of distinct values of a 1-d array. -/
def npUnique (l : List Nat) : List Nat := l.foldr insertSorted []

/-- Model of `np.max` on a 1-d array of naturals (0 on the empty array, where numpy
raises instead; the empty case never passes the surrounding checks). -/
def natMax (l : List Nat) : Nat := l.foldr Nat.max 0

/-- Modelled from the spec: the fixed spatial output shape established at
setup by the collaborator `labels_to_image_model` (spec section 3, "Output
shape"): the configured `output_shape` when given (else the native label-map
shape), forced down to multiples of `output_div_by_n` when that is given. -/
def computeOutputShape (labelsShape : List Nat) (outputShape : Option (List Nat))
    (outputDivByN : Option Nat) : List Nat :=
  let s := outputShape.getD labelsShape
  match outputDivByN with
  | none => s
  | some n => s.map (fun d => d - d % n)

/-- The count check guarding `images_dir` (source line 178): with images
provided, their count must equal the label-map count. -/
def imagesCountOk (cfg : Config) : Bool :=
  match cfg.images_dir with
  | some imgs => imgs.length == cfg.labels_dir.length
  | none => true

/-- The generator record built once all construction-time checks have passed:
the `self.<field> = ...` assignments of `__init__` (source lines 173-245). -/
def mkGen (cfg : Config) (gc : List Nat) : Generator :=
  let hd := cfg.labels_dir.headD defaultVolumeFile
  { labels_paths := cfg.labels_dir
    images_paths := cfg.images_dir
    labels_shape := hd.vol.shape
    aff := hd.aff
    n_dims := hd.vol.shape.length
    atlas_res := hd.res
    generation_labels := cfg.generation_labels
    n_neutral_labels := cfg.n_neutral_labels.getD cfg.generation_labels.length
    batchsize := cfg.batchsize
    n_channels := cfg.input_channels.length
    output_channel := cfg.output_channel
    flipping := cfg.flipping
    generation_classes := gc
    prior_means := cfg.prior_means
    prior_stds := cfg.prior_stds
    scaling_bounds := cfg.scaling_bounds
    rotation_bounds := cfg.rotation_bounds
    shearing_bounds := cfg.shearing_bounds
    translation_bounds := cfg.translation_bounds
    nonlin_std := cfg.nonlin_std
    blur_range := cfg.blur_range
    bias_field_std := cfg.bias_field_std
    out_spatial_shape := computeOutputShape hd.vol.shape cfg.output_shape cfg.output_div_by_n }

/-- Embedding of `BrainGenerator.__init__`: the construction-time checks in source order —
the folder listing must be non-empty (`utils.list_images_in_folder` raises on
an empty folder, line 173), the image count must match the label count
(line 178), and a supplied `generation_classes` must have the shape of
`generation_labels` (line 206) and its unique values must form the contiguous
range `0..max` (line 209). On success the stored fields are `mkGen`. -/
def init (cfg : Config) : Except String Generator :=
  if cfg.labels_dir.length = 0 then
    .error "no training data found in folder"
  else if imagesCountOk cfg then
    match cfg.generation_classes with
    | some gc =>
      if gc.length = cfg.generation_labels.length then
        if npUnique gc = List.range (natMax gc + 1) then
          .ok (mkGen cfg gc)
        else
          .error "generation_classes should a linear range between 0 and its maximum value."
      else
        .error "if provided, generation labels should have the same shape as generation_labels"
    | none => .ok (mkGen cfg (List.range cfg.generation_labels.length))
  else
    .error "Different number of images and segmentations"

/-- Whether construction succeeded. -/
def isOk : Except String Generator → Bool
  | .ok _ => true
  | .error _ => false

/-- The `generation_classes` checks of `__init__` as a single boolean. -/
def classesCheck (cfg : Config) : Bool :=
  match cfg.generation_classes with
  | none => true
  | some gc =>
    (gc.length == cfg.generation_labels.length) &&
      (npUnique gc == List.range (natMax gc + 1))

theorem isOk_init (cfg : Config) :
    isOk (init cfg) =
      (!(cfg.labels_dir.length == 0) && imagesCountOk cfg && classesCheck cfg) := by
  unfold init classesCheck
  rcases h : cfg.generation_classes with _ | gc <;>
    simp only [h] <;> split_ifs <;> simp_all [isOk]

/-! ## Volume reorientation (`ext.lab2im.edit_volumes.align_volume_to_ref`) -/

/-- Mirror a coordinate inside an axis of size `s` (`i` becomes `s - 1 - i`);
coordinates outside the axis do not occur and are left alone. -/
def mirrorCoord (s x : Nat) : Nat := if x < s then s - 1 - x else x

/-- Mirror component `a` of an index vector along an axis of size `s`. -/
def flipAxisIdx : Nat → Nat → List Nat → List Nat
  | _, _, [] => []
  | 0, s, x :: xs => mirrorCoord s x :: xs
  | a + 1, s, x :: xs => x :: flipAxisIdx a s xs

/-- Mirror an index vector on every axis whose flag is set, each axis with its
own size taken from the shape vector. -/
def applyFlips : List Bool → List Nat → List Nat → List Nat
  | f :: fs, s :: ss, x :: xs =>
    (if f then mirrorCoord s x else x) :: applyFlips fs ss xs
  | _, _, idx => idx

/-- Modelled from the spec: `edit_volumes.align_volume_to_ref` is an external
collaborator (spec section 1, "out of scope"; section 4.3) that re-expresses a
volume given in the orientation of `aff` into the orientation implied by
`affRef`, acting on the first `nDims` (spatial) axes and leaving trailing
channel axes untouched; per the interface contract of sections 4.3 and 6 the
result keeps the same shape. It mirrors the data along every spatial axis on
which the two orientations disagree. -/
def align_volume_to_ref (v : Volume) (aff affRef : Affine) (nDims : Nat) : Volume :=
  ⟨v.shape,
    fun idx =>
      v.data (applyFlips (List.zipWith (fun a b => a != b)
        (aff.flips.take nDims) (affRef.flips.take nDims)) v.shape idx)⟩

/-! ## The model-inputs generator (`model_inputs.build_model_inputs`) -/

/-- One bundle yielded by the model-inputs generator: the selected label maps,
the index-aligned real images when a real-image corpus is configured, and the
per-class GMM means and standard deviations sampled for this mini-batch. -/
structure Bundle where
  labelMaps : List Volume
  realImages : Option (List Volume)
  means : List Int
  stds : List Int

/-- A deterministic pseudo-random word stream standing for the process-wide
random source (spec section 5): a linear congruential step. -/
def lcg (s : Nat) : Nat := (s * 1664525 + 1013904223) % 4294967296

/-- Modelled from the spec: draw one value from the uniform prior with bounds
`lo..hi` (spec section 4.1), using the pseudo-random stream. -/
def drawUniform (lo hi : Int) (seed : Nat) : Int :=
  lo + Int.ofNat (lcg seed % ((hi - lo).toNat + 1))

/-- The number of intensity classes `K`: one past the largest class index. -/
def numClasses (g : Generator) : Nat := natMax g.generation_classes + 1

/-- Modelled from the spec: the bundle yielded at stream position `n` by the
infinite generator `build_model_inputs` (spec section 4.1): `batchsize` label
maps selected with replacement from the corpus, the index-aligned real images
when `images_dir` was configured, and fresh per-class means and stds drawn
from the priors. -/
def modelInputsAt (g : Generator) (n : Nat) : Bundle :=
  let pick := fun i => lcg (n * (g.batchsize + 1) + i) % g.labels_paths.length
  { labelMaps := (List.range g.batchsize).map
      (fun i => ((g.labels_paths.getD (pick i) defaultVolumeFile).vol))
    realImages := g.images_paths.map
      (fun imgs => (List.range g.batchsize).map
        (fun i => ((imgs.getD (pick i) defaultVolumeFile).vol)))
    means := (List.range (numClasses g)).map
      (fun k => drawUniform g.prior_means.1 g.prior_means.2 (lcg (2 * (n * numClasses g + k))))
    stds := (List.range (numClasses g)).map
      (fun k => drawUniform g.prior_stds.1 g.prior_stds.2 (lcg (2 * (n * numClasses g + k) + 1))) }

/-! ## The synthesizer (`labels_to_image_model`) -/

/-- Crop or zero-pad a volume to a target shape: voxels inside the original
bounds keep their value, voxels outside read zero. -/
def inBounds : List Nat → List Nat → Bool
  | [], [] => true
  | s :: ss, x :: xs => decide (x < s) && inBounds ss xs
  | _, _ => false

def cropPad (tgt : List Nat) (v : Volume) : Volume :=
  ⟨tgt, fun idx => if inBounds v.shape idx then v.data idx else 0⟩

/-- Modelled from the spec: per-voxel intensity synthesis (spec section 4.2
stage 4): each voxel takes the sampled mean of the class of its label, the
class being read off the generation class map at the position of the label in the
generation label list. -/
def gmmImage (g : Generator) (means : List Int) (lab : Volume) : Volume :=
  ⟨lab.shape,
    fun idx =>
      means.getD (g.generation_classes.getD (g.generation_labels.indexOf (lab.data idx)) 0) 0⟩

/-- Assemble `n` single-channel volumes of a common spatial shape into one
volume with a trailing channel axis. -/
def withChannels (n : Nat) (spatial : List Nat) (chan : Nat → Volume) : Volume :=
  ⟨spatial ++ [n],
    fun idx => (chan (idx.getD spatial.length 0)).data (idx.take spatial.length)⟩

/-- The channel count of the regression target: one channel per configured
`output_channel` for synthetic targets, a single channel when real images are
the target. -/
def nTargetChannels (g : Generator) : Nat :=
  match g.images_paths with
  | some _ => 1
  | none => g.output_channel.length

/-- Modelled from the spec: one sample of the synthesizer (spec section 4.2):
intensities are drawn per class from the sampled means, every channel and the
target are cropped or padded to the fixed spatial output shape established at
setup, and the target is either the synthetic clean channel(s) or the real
image selected with the same index as the label map. -/
def synthSample (g : Generator) (b : Bundle) (i : Nat) : Volume × Volume :=
  let lab := b.labelMaps.getD i defaultVolume
  let intensity := gmmImage g b.means lab
  let img := withChannels g.n_channels g.out_spatial_shape
    (fun _ => cropPad g.out_spatial_shape intensity)
  let tgt :=
    match b.realImages with
    | some imgs => withChannels 1 g.out_spatial_shape
        (fun _ => cropPad g.out_spatial_shape (imgs.getD i defaultVolume))
    | none => withChannels g.output_channel.length g.out_spatial_shape
        (fun _ => cropPad g.out_spatial_shape intensity)
  (img, tgt)

/-- Modelled from the spec: `labels_to_image_model.predict` on one bundle —
the batch of synthetic image samples and the batch of target samples, both in
the canonical (identity affine) frame. -/
def labelsToImageApply (g : Generator) (b : Bundle) : List Volume × List Volume :=
  ((List.range g.batchsize).map (fun i => (synthSample g b i).1),
   (List.range g.batchsize).map (fun i => (synthSample g b i).2))

/-! ## The brain generator loop and `generate_brain` -/

/-- One step of the infinite loop `_build_brain_generator` (source lines
291-295): pull the bundle at the cursor, run the synthesizer once on it, and
advance the cursor. -/
def brainGeneratorStep (g : Generator) (n : Nat) : (List Volume × List Volume) × Nat :=
  (labelsToImageApply g (modelInputsAt g n), n + 1)

/-- The per-sample re-orientation loop of `generate_brain` (source lines
300-307): each of the `batchsize` image samples and target samples is aligned
from the canonical frame (`np.eye(4)`) to the original affine of the first
label map, `self.aff`. -/
def orientToNative (g : Generator) (p : List Volume × List Volume) :
    List Volume × List Volume :=
  ((List.range g.batchsize).map
      (fun i => align_volume_to_ref (p.1.getD i defaultVolume)
        (canonicalAff g.n_dims) g.aff g.n_dims),
   (List.range g.batchsize).map
      (fun i => align_volume_to_ref (p.2.getD i defaultVolume)
        (canonicalAff g.n_dims) g.aff g.n_dims))

/-- Embedding of `BrainGenerator.generate_brain` (source lines 297-310): pull the next
(image, target) pair from the brain generator, re-orient every sample of the
batch to native orientation, and stack. The stacked numpy batches are the two
lists; `stackShape` below gives the shapes of the stacked arrays. -/
def generate_brain (g : Generator) (n : Nat) : (List Volume × List Volume) × Nat :=
  (orientToNative g (brainGeneratorStep g n).1, (brainGeneratorStep g n).2)

/-- The shape of `np.stack(vols, axis=0)`: the batch size followed by the
common sample shape. -/
def stackShape (vols : List Volume) : List Nat :=
  vols.length :: (vols.headD defaultVolume).shape

/-- The trace of `k` successive `generate_brain` calls. -/
def runGenerator (g : Generator) (s : Nat) : Nat → List (List Volume × List Volume)
  | 0 => []
  | k + 1 => (generate_brain g s).1 :: runGenerator g (generate_brain g s).2 k

/-- The full mutable state of a `BrainGenerator` object: the static
configuration fields plus the position of the underlying infinite generators
(the only thing a call advances). -/
structure GenState where
  gen : Generator
  cursor : Nat

/-- One `generate_brain` call as a transition on the object state. -/
def stepState (s : GenState) : GenState :=
  ⟨s.gen, (generate_brain s.gen s.cursor).2⟩

/-- The object state after `k` calls. -/
def iterState (s : GenState) : Nat → GenState
  | 0 => s
  | k + 1 => stepState (iterState s k)

/-! ## Deterministic left-right flip relabeling (spec section 4.2, stage 3) -/

/-- The position swap induced by the generation label list layout
`[neutral prefix (length nNeutral), left labels (length m), right labels
(length m)]`: neutral positions are fixed, each left position is exchanged
with its paired right position, positions beyond the list are fixed. -/
def pairIndex (nNeutral m i : Nat) : Nat :=
  if i < nNeutral then i
  else if i < nNeutral + m then i + m
  else if i < nNeutral + 2 * m then i - m
  else i

/-- Modelled from the spec: the relabeling half of the deterministic
left-right flip (spec section 4.2 stage 3): a label value is looked up in the
generation label list and replaced by the label at the paired position (its
contralateral partner); neutral labels and values outside the list are
unchanged. -/
def swapLabel (labels : List Int) (nNeutral : Nat) (x : Int) : Int :=
  (labels.get? (pairIndex nNeutral ((labels.length - nNeutral) / 2)
    (labels.indexOf x))).getD x

/-- Modelled from the spec: the deterministic left-right flip of a label map
(spec section 4.2 stage 3): mirror the volume along the flip axis and relabel
every voxel by swapping left and right labels. -/
def flipLR (labels : List Int) (nNeutral axis : Nat) (v : Volume) : Volume :=
  ⟨v.shape,
    fun idx => swapLabel labels nNeutral (v.data (flipAxisIdx axis (v.shape.getD axis 0) idx))⟩

theorem mirrorCoord_involutive (s x : Nat) : mirrorCoord s (mirrorCoord s x) = x := by
  unfold mirrorCoord
  split_ifs <;> omega

theorem flipAxisIdx_involutive (a s : Nat) (idx : List Nat) :
    flipAxisIdx a s (flipAxisIdx a s idx) = idx := by
  induction idx generalizing a with
  | nil => cases a <;> rfl
  | cons x xs ih =>
    cases a with
    | zero => simp [flipAxisIdx, mirrorCoord_involutive]
    | succ a => simp [flipAxisIdx, ih]

theorem pairIndex_involutive (nNeutral m i : Nat) :
    pairIndex nNeutral m (pairIndex nNeutral m i) = i := by
  unfold pairIndex
  split_ifs <;> omega

theorem pairIndex_lt (nNeutral m i len : Nat) (hlen : len = nNeutral + 2 * m)
    (hi : i < len) : pairIndex nNeutral m i < len := by
  unfold pairIndex
  split_ifs <;> omega

theorem indexOf_get_of_nodup (l : List Int) (hnd : l.Nodup) (j : Nat) (hj : j < l.length) :
    l.indexOf (l.get ⟨j, hj⟩) = j := by
  have hmem : l.get ⟨j, hj⟩ ∈ l := l.get_mem _ _
  have hlt : l.indexOf (l.get ⟨j, hj⟩) < l.length := List.indexOf_lt_length.mpr hmem
  have hget : l.get ⟨l.indexOf (l.get ⟨j, hj⟩), hlt⟩ = l.get ⟨j, hj⟩ := List.indexOf_get hlt
  have hinj := List.nodup_iff_injective_get.mp hnd hget
  exact congrArg Fin.val hinj

theorem swapLabel_involutive (labels : List Int) (nNeutral m : Nat)
    (hnd : labels.Nodup) (hlen : labels.length = nNeutral + 2 * m) (x : Int) :
    swapLabel labels nNeutral (swapLabel labels nNeutral x) = x := by
  have hm : (labels.length - nNeutral) / 2 = m := by omega
  by_cases hx : x ∈ labels
  · have hi : labels.indexOf x < labels.length := List.indexOf_lt_length.mpr hx
    have hpi : pairIndex nNeutral m (labels.indexOf x) < labels.length :=
      pairIndex_lt nNeutral m _ _ hlen hi
    have h1 : swapLabel labels nNeutral x =
        labels.get ⟨pairIndex nNeutral m (labels.indexOf x), hpi⟩ := by
      unfold swapLabel
      rw [hm, List.get?_eq_get hpi]
      rfl
    rw [h1]
    unfold swapLabel
    rw [hm, indexOf_get_of_nodup labels hnd _ hpi, pairIndex_involutive,
      List.get?_eq_get hi]
    exact List.indexOf_get hi
  · have hix : labels.indexOf x = labels.length := List.indexOf_eq_length.mpr hx
    have hfix : pairIndex nNeutral m labels.length = labels.length := by
      unfold pairIndex
      split_ifs <;> omega
    have h1 : swapLabel labels nNeutral x = x := by
      unfold swapLabel
      rw [hm, hix, hfix, List.get?_eq_none.mpr (le_refl _)]
      rfl
    rw [h1, h1]

/-! ## General access lemmas -/

theorem getD_map_range (b i : Nat) (f : Nat → Volume) (d : Volume) (h : i < b) :
    ((List.range b).map f).getD i d = f i := by
  rw [List.getD_eq_getElem?_getD, List.getElem?_map, List.getElem?_range h]
  rfl

theorem headD_map_range (b : Nat) (f : Nat → Volume) (d : Volume) (h : 0 < b) :
    ((List.range b).map f).headD d = f 0 := by
  obtain ⟨k, rfl⟩ : ∃ k, b = k + 1 := ⟨b - 1, by omega⟩
  rw [List.range_succ_eq_map]
  rfl

theorem runGenerator_length (g : Generator) (s k : Nat) :
    (runGenerator g s k).length = k := by
  induction k generalizing s with
  | zero => rfl
  | succ k ih => simp [runGenerator, ih]

/-! ## Claim theorems -/

/-- Claim C1: every `generate_brain` call returns a stacked image batch and a
stacked target batch shaped `(batchsize, *output_shape, channels)`: the first
dimension is the configured batch size and the remaining dimensions are the
fixed spatial output shape established at setup followed by the channel
count, independently of the native shape of the input label map. -/
theorem generate_brain_batch_shape (g : Generator) (n : Nat) (hb : 0 < g.batchsize) :
    stackShape (generate_brain g n).1.1 =
      g.batchsize :: (g.out_spatial_shape ++ [g.n_channels]) ∧
    stackShape (generate_brain g n).1.2 =
      g.batchsize :: (g.out_spatial_shape ++ [nTargetChannels g]) := by
  constructor
  · unfold generate_brain orientToNative brainGeneratorStep stackShape
    simp only [List.length_map, List.length_range]
    rw [headD_map_range _ _ _ hb]
    show g.batchsize ::
      ((labelsToImageApply g (modelInputsAt g n)).1.getD 0 defaultVolume).shape = _
    unfold labelsToImageApply
    rw [getD_map_range _ _ _ _ hb]
    rfl
  · unfold generate_brain orientToNative brainGeneratorStep stackShape
    simp only [List.length_map, List.length_range]
    rw [headD_map_range _ _ _ hb]
    show g.batchsize ::
      ((labelsToImageApply g (modelInputsAt g n)).2.getD 0 defaultVolume).shape = _
    unfold labelsToImageApply
    rw [getD_map_range _ _ _ _ hb]
    unfold synthSample nTargetChannels modelInputsAt
    rcases g.images_paths with _ | imgs <;> rfl

/-- Claim C2: `generate_brain` re-expresses every image sample and every
target sample of the batch from the internal canonical frame (identity
affine) into the orientation of the original affine of the first label map,
applying `align_volume_to_ref` with the same source affine (`np.eye(4)`) and
the same reference affine (`self.aff`) to the image and to its target. -/
theorem generate_brain_coregistered (g : Generator) (n i : Nat) (hi : i < g.batchsize) :
    (generate_brain g n).1.1.getD i defaultVolume =
      align_volume_to_ref
        ((labelsToImageApply g (modelInputsAt g n)).1.getD i defaultVolume)
        (canonicalAff g.n_dims) g.aff g.n_dims ∧
    (generate_brain g n).1.2.getD i defaultVolume =
      align_volume_to_ref
        ((labelsToImageApply g (modelInputsAt g n)).2.getD i defaultVolume)
        (canonicalAff g.n_dims) g.aff g.n_dims := by
  constructor <;>
    · unfold generate_brain orientToNative brainGeneratorStep
      rw [getD_map_range _ _ _ _ hi]

/-- Claim C3: with a supplied `generation_classes`, construction succeeds only
if the sorted set of its unique values is the contiguous range `0..max`; any
gapped array, or one not starting at 0, makes construction fail. The check is
part of `init` — `generate_brain` is a total function and performs no
validation. -/
theorem generation_classes_contiguous (cfg : Config) (gc : List Nat) :
    (cfg.generation_classes = some gc →
      npUnique gc ≠ List.range (natMax gc + 1) → isOk (init cfg) = false) ∧
    (isOk (init cfg) = true → cfg.generation_classes = some gc →
      npUnique gc = List.range (natMax gc + 1)) := by
  constructor
  · intro h hne
    rw [isOk_init]
    simp [classesCheck, h, hne]
  · intro hok h
    rw [isOk_init] at hok
    simp [classesCheck, h] at hok
    exact hok.2.2

/-- Claim C4: each `generate_brain` call consumes exactly one bundle from the
model-inputs stream (the cursor advances by exactly one), the synthesizer is
applied exactly once to that bundle, and repeated calls never exhaust: a run
of `k` calls yields `k` batches for every `k`. -/
theorem one_draw_one_batch (g : Generator) (s : Nat) :
    (generate_brain g s).2 = s + 1 ∧
    (generate_brain g s).1 = orientToNative g (labelsToImageApply g (modelInputsAt g s)) ∧
    ∀ k, (runGenerator g s k).length = k :=
  ⟨rfl, rfl, fun k => runGenerator_length g s k⟩

/-- Claim C5: on a label list made of a neutral prefix and two equal sided
halves, the deterministic left-right flip relabeling is an involution:
flipping a label map twice along the same axis reproduces it exactly. -/
theorem flipLR_roundtrip (labels : List Int) (nNeutral m axis : Nat) (v : Volume)
    (hnd : labels.Nodup) (hlen : labels.length = nNeutral + 2 * m) :
    flipLR labels nNeutral axis (flipLR labels nNeutral axis v) = v := by
  cases v with
  | mk shape data =>
    unfold flipLR
    congr 1
    funext idx
    show swapLabel labels nNeutral (swapLabel labels nNeutral
      (data (flipAxisIdx axis (shape.getD axis 0)
        (flipAxisIdx axis (shape.getD axis 0) idx)))) = data idx
    rw [flipAxisIdx_involutive]
    exact swapLabel_involutive labels nNeutral m hnd hlen _

/-- Claim C6: with `images_dir` provided, a count differing from the label-map
count makes construction fail with the count-mismatch error; with equal
counts the check passes and construction proceeds (and succeeds when the
remaining construction checks hold). -/
theorem images_count_mismatch (cfg : Config) (imgs : List VolumeFile) :
    (cfg.labels_dir.length ≠ 0 → cfg.images_dir = some imgs →
      imgs.length ≠ cfg.labels_dir.length →
      init cfg = .error "Different number of images and segmentations") ∧
    (cfg.images_dir = some imgs → imgs.length = cfg.labels_dir.length →
      imagesCountOk cfg = true) ∧
    (cfg.labels_dir.length ≠ 0 → cfg.images_dir = some imgs →
      imgs.length = cfg.labels_dir.length → classesCheck cfg = true →
      isOk (init cfg) = true) := by
  refine ⟨?_, ?_, ?_⟩
  · intro h0 h hne
    have hic : imagesCountOk cfg = false := by
      simp only [imagesCountOk, h, beq_eq_false_iff_ne, ne_eq]
      exact hne
    unfold init
    rw [if_neg h0, if_neg (by simp [hic])]
  · intro h heq
    simp [imagesCountOk, h, heq]
  · intro h0 h heq hcc
    rw [isOk_init]
    simp [imagesCountOk, h, heq, h0, hcc]

/-- Claim C7: a supplied `generation_classes` whose shape differs from that of
`generation_labels` makes construction fail at setup with a descriptive
error; equal shapes are a precondition of successful construction. -/
theorem generation_classes_shape (cfg : Config) (gc : List Nat) :
    (cfg.labels_dir.length ≠ 0 → imagesCountOk cfg = true →
      cfg.generation_classes = some gc → gc.length ≠ cfg.generation_labels.length →
      init cfg =
        .error "if provided, generation labels should have the same shape as generation_labels") ∧
    (isOk (init cfg) = true → cfg.generation_classes = some gc →
      gc.length = cfg.generation_labels.length) := by
  constructor
  · intro h0 hic h hne
    unfold init
    rw [if_neg h0, if_pos (by simp [hic]), h]
    simp [hne]
  · intro hok h
    rw [isOk_init] at hok
    simp [classesCheck, h] at hok
    exact hok.2.1

/-- Claim C8: when `generation_classes` is not supplied, the constructed
class map of the constructed generator assigns every label position its own class index: it is
`0, 1, ..., K-1` with `K` the number of generation labels. -/
theorem generation_classes_default (cfg : Config) (g : Generator)
    (h : cfg.generation_classes = none) (hok : init cfg = .ok g) :
    g.generation_classes = List.range g.generation_labels.length ∧
    g.generation_classes.length = g.generation_labels.length := by
  unfold init at hok
  rw [h] at hok
  split at hok
  · cases hok
  · split at hok
    · injection hok with hg
      subst hg
      refine ⟨rfl, ?_⟩
      show (List.range cfg.generation_labels.length).length = cfg.generation_labels.length
      exact List.length_range _
    · cases hok

/-- Claim C9: a `generate_brain` call changes nothing of the static
generator configuration: after any number of calls the stored configuration
record, and in particular the path lists, generation labels, class map,
priors, bound specs, batch size, output shape and reference affine, are what
construction set; only the stream cursor moves (and a call has no failure
state to undo, `generate_brain` being a total function). -/
theorem static_config_immutable (s : GenState) (k : Nat) :
    (iterState s k).gen = s.gen ∧
    (iterState s k).gen.labels_paths = s.gen.labels_paths ∧
    (iterState s k).gen.images_paths = s.gen.images_paths ∧
    (iterState s k).gen.generation_labels = s.gen.generation_labels ∧
    (iterState s k).gen.generation_classes = s.gen.generation_classes ∧
    (iterState s k).gen.prior_means = s.gen.prior_means ∧
    (iterState s k).gen.prior_stds = s.gen.prior_stds ∧
    (iterState s k).gen.scaling_bounds = s.gen.scaling_bounds ∧
    (iterState s k).gen.rotation_bounds = s.gen.rotation_bounds ∧
    (iterState s k).gen.shearing_bounds = s.gen.shearing_bounds ∧
    (iterState s k).gen.translation_bounds = s.gen.translation_bounds ∧
    (iterState s k).gen.batchsize = s.gen.batchsize ∧
    (iterState s k).gen.out_spatial_shape = s.gen.out_spatial_shape ∧
    (iterState s k).gen.aff = s.gen.aff := by
  have h : (iterState s k).gen = s.gen := by
    induction k with
    | zero => rfl
    | succ k ih => simp [iterState, stepState, ih]
  exact ⟨h, by rw [h], by rw [h], by rw [h], by rw [h], by rw [h], by rw [h], by rw [h],
    by rw [h], by rw [h], by rw [h], by rw [h], by rw [h], by rw [h]⟩

/-- Claim C10: an omitted `n_neutral_labels` defaults to the total number of
generation labels, and a supplied value is stored as-is: construction
performs no validation of it (success is unchanged by the supplied value, and
the stored field is exactly the supplied value, even one for which the sided
suffix could not split into equal halves). -/
theorem n_neutral_labels_default (cfg : Config) (g g2 : Generator) (v : Nat) :
    (cfg.n_neutral_labels = none → init cfg = .ok g →
      g.n_neutral_labels = g.generation_labels.length) ∧
    isOk (init { cfg with n_neutral_labels := some v }) = isOk (init cfg) ∧
    (init { cfg with n_neutral_labels := some v } = .ok g2 →
      g2.n_neutral_labels = v) := by
  refine ⟨?_, ?_, ?_⟩
  · intro h hok
    unfold init at hok
    split at hok
    · cases hok
    · split at hok
      · split at hok
        · split at hok
          · split at hok
            · injection hok with hg
              subst hg
              show cfg.n_neutral_labels.getD cfg.generation_labels.length =
                cfg.generation_labels.length
              rw [h]
              rfl
            · cases hok
          · cases hok
        · injection hok with hg
          subst hg
          show cfg.n_neutral_labels.getD cfg.generation_labels.length =
            cfg.generation_labels.length
          rw [h]
          rfl
      · cases hok
  · rw [isOk_init, isOk_init]
    rfl
  · intro hok
    unfold init at hok
    split at hok
    · cases hok
    · split at hok
      · split at hok
        · split at hok
          · split at hok
            · injection hok with hg
              subst hg
              rfl
            · cases hok
          · cases hok
        · injection hok with hg
          subst hg
          rfl
      · cases hok

/-! ## Concrete witness instances -/

/-- A concrete label-map file: a 4x4x4 single-label volume whose affine
reverses the third axis. -/
def volW : Volume := ⟨[4, 4, 4], fun _ => 1⟩

def affW : Affine := ⟨[false, false, true]⟩

def vfW : VolumeFile := ⟨volW, affW, [1, 1, 1]⟩

/-- A concrete valid configuration: one label map, two labels, batch size 2,
configured output shape `[2, 3, 2]`, all other arguments at their defaults. -/
def cfgW : Config :=
  { labels_dir := [vfW]
    generation_labels := [0, 1]
    batchsize := 2
    output_shape := some [2, 3, 2] }

/-- The generator `init cfgW` constructs. -/
def genW : Generator := mkGen cfgW (List.range 2)

/-- A configuration with a gapped `generation_classes` array `[0, 0, 2]`. -/
def cfgGap : Config :=
  { labels_dir := [vfW]
    generation_labels := [0, 1, 2]
    generation_classes := some [0, 0, 2] }

/-- A configuration with one label map but an empty real-image listing. -/
def cfgMismatch : Config :=
  { labels_dir := [vfW]
    images_dir := some []
    generation_labels := [0, 1] }

/-- A configuration with one label map and one matching real image. -/
def cfgMatched : Config :=
  { labels_dir := [vfW]
    images_dir := some [vfW]
    generation_labels := [0, 1] }

/-- A configuration whose `generation_classes` has the wrong length. -/
def cfgBadShape : Config :=
  { labels_dir := [vfW]
    generation_labels := [0, 1]
    generation_classes := some [0] }

/-- The configuration `cfgW` with an absurd supplied `n_neutral_labels`. -/
def cfgNeutral : Config := { cfgW with n_neutral_labels := some 999 }

/-- The generator `init cfgNeutral` constructs. -/
def genNeutral : Generator := mkGen cfgNeutral (List.range 2)

/-- The label list of the flip example in the spec: 3 neutral labels and 2
left/right pairs. -/
def labelsW : List Int := [0, 1, 2, 10, 11, 20, 21]

/-- A concrete 2x2 label map holding a left-side label. -/
def volFlip : Volume := ⟨[2, 2], fun _ => 10⟩

/-- Witness for claim C1: on the concretely constructed generator `genW`
(batch size 2, output shape `[2, 3, 2]`, one synthetic channel), the batch
shapes are `(2, 2, 3, 2, 1)`. -/
theorem generate_brain_batch_shape_witness :
    0 < genW.batchsize ∧
    (stackShape (generate_brain genW 0).1.1 =
        genW.batchsize :: (genW.out_spatial_shape ++ [genW.n_channels]) ∧
      stackShape (generate_brain genW 0).1.2 =
        genW.batchsize :: (genW.out_spatial_shape ++ [nTargetChannels genW])) :=
  ⟨by decide, generate_brain_batch_shape genW 0 (by decide)⟩

/-- Witness for claim C2: sample 0 of a `genW` batch and its target are both
re-oriented with the same canonical-to-`genW.aff` alignment. -/
theorem generate_brain_coregistered_witness :
    0 < genW.batchsize ∧
    ((generate_brain genW 0).1.1.getD 0 defaultVolume =
        align_volume_to_ref
          ((labelsToImageApply genW (modelInputsAt genW 0)).1.getD 0 defaultVolume)
          (canonicalAff genW.n_dims) genW.aff genW.n_dims ∧
      (generate_brain genW 0).1.2.getD 0 defaultVolume =
        align_volume_to_ref
          ((labelsToImageApply genW (modelInputsAt genW 0)).2.getD 0 defaultVolume)
          (canonicalAff genW.n_dims) genW.aff genW.n_dims) :=
  ⟨by decide, generate_brain_coregistered genW 0 0 (by decide)⟩

/-- Witness for claim C3: the gapped class array `[0, 0, 2]` is rejected at
construction. -/
theorem generation_classes_contiguous_witness :
    cfgGap.generation_classes = some [0, 0, 2] ∧
    npUnique [0, 0, 2] ≠ List.range (natMax [0, 0, 2] + 1) ∧
    isOk (init cfgGap) = false :=
  ⟨rfl, by decide, (generation_classes_contiguous cfgGap [0, 0, 2]).1 rfl (by decide)⟩

/-- Witness for claim C5: on the example layout of the spec (3 neutral labels, 2
left/right pairs), flipping a concrete label map twice along axis 0 gives the
map back. -/
theorem flipLR_roundtrip_witness :
    labelsW.Nodup ∧ labelsW.length = 3 + 2 * 2 ∧
    flipLR labelsW 3 0 (flipLR labelsW 3 0 volFlip) = volFlip :=
  ⟨by decide, by decide, flipLR_roundtrip labelsW 3 2 0 volFlip (by decide) (by decide)⟩

/-- Witness for claim C6: one label map with an empty image listing fails
with the count-mismatch error, and with a matched image listing construction
succeeds. -/
theorem images_count_mismatch_witness :
    (cfgMismatch.labels_dir.length ≠ 0 ∧ cfgMismatch.images_dir = some [] ∧
      List.length ([] : List VolumeFile) ≠ cfgMismatch.labels_dir.length ∧
      init cfgMismatch = .error "Different number of images and segmentations") ∧
    (cfgMatched.images_dir = some [vfW] ∧
      List.length [vfW] = cfgMatched.labels_dir.length ∧
      isOk (init cfgMatched) = true) :=
  ⟨⟨by decide, rfl, by decide,
      (images_count_mismatch cfgMismatch []).1 (by decide) rfl (by decide)⟩,
    ⟨rfl, by decide,
      (images_count_mismatch cfgMatched [vfW]).2.2 (by decide) rfl (by decide) (by decide)⟩⟩

/-- Witness for claim C7: a one-element class array against two generation
labels is rejected with the shape-mismatch error. -/
theorem generation_classes_shape_witness :
    cfgBadShape.generation_classes = some [0] ∧
    List.length [(0 : Nat)] ≠ cfgBadShape.generation_labels.length ∧
    init cfgBadShape =
      .error "if provided, generation labels should have the same shape as generation_labels" :=
  ⟨rfl, by decide,
    (generation_classes_shape cfgBadShape [0]).1 (by decide) (by decide) rfl (by decide)⟩

/-- Witness for claim C8: `cfgW` supplies no `generation_classes`, and the
class map of the constructed generator is `[0, 1]` — the identity on its two
labels. -/
theorem generation_classes_default_witness :
    cfgW.generation_classes = none ∧ init cfgW = .ok genW ∧
    (genW.generation_classes = List.range genW.generation_labels.length ∧
      genW.generation_classes.length = genW.generation_labels.length) :=
  ⟨rfl, by rfl, generation_classes_default cfgW genW rfl (by rfl)⟩

/-- Witness for claim C10: `cfgW` omits `n_neutral_labels` and the
constructed generator defaults it to 2 (its label count); supplying the
absurd value 999 changes nothing about construction success and is stored
verbatim. -/
theorem n_neutral_labels_default_witness :
    cfgW.n_neutral_labels = none ∧ init cfgW = .ok genW ∧
    init cfgNeutral = .ok genNeutral ∧
    genW.n_neutral_labels = genW.generation_labels.length ∧
    isOk (init cfgNeutral) = isOk (init cfgW) ∧
    genNeutral.n_neutral_labels = 999 :=
  ⟨rfl, by rfl, by rfl,
    (n_neutral_labels_default cfgW genW genNeutral 999).1 rfl (by rfl),
    (n_neutral_labels_default cfgW genW genNeutral 999).2.1,
    (n_neutral_labels_default cfgW genW genNeutral 999).2.2 (by rfl)⟩

end SynthSR
